import Mathlib

/-!
Verification of the risk-gated signal-to-trade engine of the
crypto-trading-saas repository.

The definitions below are a shallow embedding of the JavaScript source:

* string helpers model the JS string primitives used by
  `src/backend/services/tradingService.js` (`split`, `replace` with a string
  pattern, `trim`, `toUpperCase`, `includes`);
* `parseSignal` models `parseSignal` (signal ingestion);
* `admitParsed` / `admitSignal` / `webhookAdmission` model the guard
  sequence of `processWebhookSignal` together with the checks done by
  `webhookController.handleTradingViewWebhook` before it;
* `TradingConfig.updateDailyPnL` and `TradingConfig.isTradingAllowed` model
  the methods of `src/backend/models/TradingConfig.js`;
* `Strategy.updatePerformance` and `Strategy.updateConfidenceScore` model
  the methods of the Strategy model;
* `executeTrade`, `calculatePositionSize`, `getCurrentPrice` model the
  execution path of `tradingService.js`, with the external exchange calls
  (price fetch, order submission) passed in as explicit arguments and the
  number of such calls recorded in the result.

JavaScript numbers are modelled by `ℚ` (all the arithmetic the claims are
about is exact in both), JS `undefined`/`null` by `Option`, and thrown
errors by explicit error results.
-/

namespace CryptoSaaS

/-! ### String primitives (models of the JS string methods used) -/

/-- Whether the first list is a prefix of the second (over characters). -/
def isPrefixOfL : List Char → List Char → Bool
  | [], _ => true
  | _ :: _, [] => false
  | a :: p, b :: s => a == b && isPrefixOfL p s

/-- JS `String.prototype.replace(pat, "")` with a string pattern: removes the
FIRST occurrence of `pat` (anywhere in the string), or leaves the string
unchanged when `pat` does not occur. -/
def removeFirst (pat : List Char) : List Char → List Char
  | [] => []
  | c :: rest =>
      if isPrefixOfL pat (c :: rest) then List.drop pat.length (c :: rest)
      else c :: removeFirst pat rest

/-- JS `String.prototype.includes(pat)`: whether `pat` occurs as a contiguous
substring. -/
def containsSub (pat : List Char) : List Char → Bool
  | [] => isPrefixOfL pat []
  | c :: rest => isPrefixOfL pat (c :: rest) || containsSub pat rest

/-- JS `String.prototype.split(sep)` for a one-character separator. -/
def splitOnChar (sep : Char) : List Char → List (List Char)
  | [] => [[]]
  | c :: rest =>
      if c == sep then [] :: splitOnChar sep rest
      else
        match splitOnChar sep rest with
        | [] => [[c]]
        | w :: ws => (c :: w) :: ws

/-- ASCII whitespace, as removed by JS `trim` on the payloads in scope. -/
def isWs (c : Char) : Bool := c == ' ' || c == '\t' || c == '\n' || c == '\r'

/-- Drop leading whitespace. -/
def trimL : List Char → List Char
  | [] => []
  | c :: rest => if isWs c then trimL rest else c :: rest

/-- JS `String.prototype.trim`: drop leading and trailing whitespace. -/
def trimChars (l : List Char) : List Char := trimL (trimL l.reverse).reverse

/-- JS `String.prototype.toUpperCase` (ASCII, via `Char.toUpper`). -/
def toUpperStr (s : String) : String := String.mk (s.data.map Char.toUpper)

/-- The quote-currency suffix hardcoded in `parseSignal`: `"USDT"`. -/
def usdt : List Char := ['U', 'S', 'D', 'T']

/-- Symbol normalization as performed by `parseSignal`:
`symbol.replace('USDT', '')` — JS `replace` with a string pattern removes the
first occurrence of `"USDT"`, wherever it is. -/
def normalizeSymbol (s : String) : String := String.mk (removeFirst usdt s.data)

/-! ### Lemmas about `removeFirst` -/

theorem containsSub_cons (pat : List Char) (c : Char) (rest : List Char) :
    containsSub pat (c :: rest) = (isPrefixOfL pat (c :: rest) || containsSub pat rest) := rfl

theorem removeFirst_cons (pat : List Char) (c : Char) (rest : List Char) :
    removeFirst pat (c :: rest) =
      if isPrefixOfL pat (c :: rest) then List.drop pat.length (c :: rest)
      else c :: removeFirst pat rest := rfl

theorem removeFirst_eq_self_of_not_contains (pat : List Char) :
    ∀ s : List Char, containsSub pat s = false → removeFirst pat s = s := by
  intro s
  induction s with
  | nil => intro _; rfl
  | cons c rest ih =>
      intro h
      have h1 : isPrefixOfL pat (c :: rest) = false := by
        revert h; rw [containsSub_cons]
        cases isPrefixOfL pat (c :: rest) <;> simp
      have h2 : containsSub pat rest = false := by
        revert h; rw [containsSub_cons]
        cases containsSub pat rest <;> simp
      rw [removeFirst_cons, h1]
      simp [ih h2]

theorem length_removeFirst_lt (pat : List Char) (hpat : pat ≠ []) :
    ∀ s : List Char, containsSub pat s = true →
      (removeFirst pat s).length < s.length := by
  intro s
  induction s with
  | nil =>
      intro h
      cases pat with
      | nil => exact absurd rfl hpat
      | cons a p => simp [containsSub, isPrefixOfL] at h
  | cons c rest ih =>
      intro h
      by_cases hp : isPrefixOfL pat (c :: rest) = true
      · rw [removeFirst_cons, hp]
        simp only [if_true]
        rw [List.length_drop]
        have hlen : 0 < pat.length := by
          cases pat with
          | nil => exact absurd rfl hpat
          | cons a p => simp
        exact Nat.sub_lt (by simp) hlen
      · have hb : isPrefixOfL pat (c :: rest) = false := by
          revert hp; cases isPrefixOfL pat (c :: rest) <;> simp
        have hrest : containsSub pat rest = true := by
          revert h; rw [containsSub_cons, hb]; simp
        rw [removeFirst_cons, hb]
        simp only [Bool.false_eq_true, if_false, List.length_cons]
        exact Nat.succ_lt_succ (ih hrest)

theorem usdt_ne_nil : usdt ≠ [] := by decide

/-! ### Claims C6 (symbol normalization) -/

/-- C6 (counterexample): symbol normalization is NOT idempotent. On the
input `"USDTUSDT"`, one application yields `"USDT"` and a second application
yields `""`, because JS `replace('USDT','')` removes the first occurrence of
`"USDT"` anywhere rather than one trailing suffix. -/
theorem C6_counterexample :
    normalizeSymbol (normalizeSymbol "USDTUSDT") ≠ normalizeSymbol "USDTUSDT" := by
  decide

/-- C6 (amended): `normalizeSymbol` removes the first occurrence of `"USDT"`;
it is idempotent at `s` exactly when the normalized form of `s` contains no
further occurrence of `"USDT"` (in particular on every symbol containing at
most one occurrence, such as `"BTCUSDT"`). -/
theorem C6_normalize_idempotent_iff (s : String) :
    normalizeSymbol (normalizeSymbol s) = normalizeSymbol s ↔
      containsSub usdt (normalizeSymbol s).data = false := by
  constructor
  · intro h
    by_contra hc
    have hc2 : containsSub usdt (normalizeSymbol s).data = true := by
      revert hc; cases containsSub usdt (normalizeSymbol s).data <;> simp
    have hlen := length_removeFirst_lt usdt usdt_ne_nil (normalizeSymbol s).data hc2
    have hdata : removeFirst usdt (normalizeSymbol s).data = (normalizeSymbol s).data :=
      congrArg String.data h
    rw [hdata] at hlen
    exact lt_irrefl _ hlen
  · intro h
    show String.mk (removeFirst usdt (normalizeSymbol s).data) = normalizeSymbol s
    rw [removeFirst_eq_self_of_not_contains usdt _ h]

/-! ### Signal ingestion (`parseSignal` in tradingService.js) -/

/-- Canonical parsed signal, as built by `parseSignal`. Fields that JS may
leave `undefined`/`null` are `Option`s. -/
structure ParsedSignal where
  symbol : Option String
  side : Option String
  price : Option ℚ
  type_ : String
  quantity : Option ℚ
  deriving DecidableEq, Repr

/-- Raw JSON-object payload for the object branch of `parseSignal`
(numeric fields are modelled as already-numeric values). -/
structure RawObjSignal where
  symbol : Option String
  action : Option String
  side : Option String
  price : Option ℚ
  type_ : Option String
  quantity : Option ℚ
  deriving DecidableEq, Repr

/-- Raw payload: either a TradingView alert text or a JSON object. -/
inductive RawSignal
  | text (s : String)
  | obj (r : RawObjSignal)
  deriving DecidableEq, Repr

/-- JS `a || b` on possibly-undefined strings: the empty string is falsy. -/
def jsOrStr (a b : Option String) : Option String :=
  match a with
  | some s => if s = "" then b else some s
  | none => b

/-- JS `a || d` on a possibly-undefined string with a defined default. -/
def jsOrStrD (a : Option String) (d : String) : String :=
  match a with
  | some s => if s = "" then d else s
  | none => d

/-- JS `x || null` / `x ? f x : null` on a numeric value: `0` is falsy. -/
def jsNumOrNull (a : Option ℚ) : Option ℚ :=
  match a with
  | some p => if p = 0 then none else some p
  | none => none

/-- Key searched for by the text branch: `'ACTION:'`. -/
def actionKey : List Char := ['A', 'C', 'T', 'I', 'O', 'N', ':']

/-- Key searched for by the text branch: `'SYMBOL:'`. -/
def symbolKey : List Char := ['S', 'Y', 'M', 'B', 'O', 'L', ':']

/-- Key searched for by the text branch: `'PRICE:'`. -/
def priceKey : List Char := ['P', 'R', 'I', 'C', 'E', ':']

/-- Field extraction of the text branch:
`lines.find(l => l.includes(KEY))?.split(':')[1]?.trim()`. -/
def findField (key : List Char) (lines : List (List Char)) : Option (List Char) :=
  match lines.find? (fun l => containsSub key l) with
  | none => none
  | some l =>
      match (splitOnChar ':' l)[1]? with
      | none => none
      | some v => some (trimChars v)

/-- The text (TradingView alert) branch of `parseSignal`. `parsePrice` stands
for JS `parseFloat` on the PRICE field (`none` models `NaN`). Note the side
mapping: `action.toUpperCase() === 'BUY' ? 'BUY' : 'SELL'` — every token
other than case-insensitive BUY becomes SELL. When the ACTION or SYMBOL
field is missing or empty the branch falls through to `return null`. -/
def parseSignalText (parsePrice : String → Option ℚ) (signal : String) :
    Option ParsedSignal :=
  match findField actionKey (splitOnChar '\n' signal.data),
        findField symbolKey (splitOnChar '\n' signal.data) with
  | some a, some s =>
      if a = [] then none
      else if s = [] then none
      else some
        { symbol := some (String.mk (removeFirst usdt s))
          side := some (if String.mk (a.map Char.toUpper) = "BUY" then "BUY" else "SELL")
          price := jsNumOrNull
            ((findField priceKey (splitOnChar '\n' signal.data)).bind
              (fun v => parsePrice (String.mk v)))
          type_ := "MARKET"
          quantity := none }
  | _, _ => none

/-- The JSON-object branch of `parseSignal`. It always returns an object;
the side token is passed through uppercased with no validation. -/
def parseSignalObj (r : RawObjSignal) : Option ParsedSignal :=
  some
    { symbol := r.symbol.map normalizeSymbol
      side := jsOrStr (r.action.map toUpperStr) (r.side.map toUpperStr)
      price := jsNumOrNull r.price
      type_ := jsOrStrD (r.type_.map toUpperStr) "MARKET"
      quantity := jsNumOrNull r.quantity }

/-- `parseSignal` of tradingService.js: dispatch on the payload kind. -/
def parseSignal (parsePrice : String → Option ℚ) : RawSignal → Option ParsedSignal
  | RawSignal.text s => parseSignalText parsePrice s
  | RawSignal.obj r => parseSignalObj r

/-- A `parseFloat` stand-in for payloads that carry no numeric text. -/
def ppNone : String → Option ℚ := fun _ => none

/-- A TradingView alert whose action token is `HOLD`. -/
def txtHold : String := "ACTION: HOLD\nSYMBOL: BTCUSDT"

/-- A JSON payload whose action token is `hold`. -/
def objHold : RawObjSignal :=
  { symbol := some "BTCUSDT", action := some "hold", side := none,
    price := none, type_ := none, quantity := none }

/-! ### Claims C7 (unknown action tokens) -/

/-- C7 (counterexample): an action token that is neither BUY nor SELL is not
rejected. The text branch silently maps `HOLD` to side `SELL`; the object
branch passes the uppercased token `HOLD` through. In both cases a canonical
signal is produced, so ingestion does not fail with InvalidSignalFormat. -/
theorem C7_counterexample :
    parseSignal ppNone (RawSignal.text txtHold) =
      some { symbol := some "BTC", side := some "SELL", price := none,
             type_ := "MARKET", quantity := none } ∧
    parseSignal ppNone (RawSignal.obj objHold) =
      some { symbol := some "BTC", side := some "HOLD", price := none,
             type_ := "MARKET", quantity := none } := by
  constructor <;> rfl

/-- C7 (amended): text-format ingestion never rejects a payload because of an
unknown action token — whenever ACTION and SYMBOL fields are present and
nonempty it produces a signal whose side is BUY (exactly when the uppercased
token is BUY) or SELL (for every other token); the object format passes the
token through unvalidated. -/
theorem C7_text_side_is_buy_or_sell (parsePrice : String → Option ℚ)
    (txt : String) (sig : ParsedSignal)
    (h : parseSignal parsePrice (RawSignal.text txt) = some sig) :
    sig.side = some "BUY" ∨ sig.side = some "SELL" := by
  have h2 : parseSignalText parsePrice txt = some sig := h
  unfold parseSignalText at h2
  split at h2
  · rename_i a s
    split_ifs at h2 with hc1 hc2 hb
    all_goals first
      | exact Option.noConfusion h2
      | (have hsig := Option.some.inj h2; subst hsig; left; rfl)
      | (have hsig := Option.some.inj h2; subst hsig; right; rfl)
  · exact Option.noConfusion h2

/-- C7 (witness for the amended claim): instantiated on the `HOLD` alert. -/
theorem C7_witness :
    parseSignal ppNone (RawSignal.text txtHold) =
      some { symbol := some "BTC", side := some "SELL", price := none,
             type_ := "MARKET", quantity := none } ∧
    (({ symbol := some "BTC", side := some "SELL", price := none,
        type_ := "MARKET", quantity := none } : ParsedSignal).side = some "BUY" ∨
     ({ symbol := some "BTC", side := some "SELL", price := none,
        type_ := "MARKET", quantity := none } : ParsedSignal).side = some "SELL") :=
  ⟨rfl, C7_text_side_is_buy_or_sell ppNone txtHold _ rfl⟩

/-! ### Risk model: User, TradingConfig and its methods -/

/-- Risk settings stored on the User model (`User.riskSettings`). -/
structure RiskSettings where
  dailyLossCap : ℚ
  maxTradeCountPerDay : ℕ
  maxTradeSizePercent : ℚ
  deriving DecidableEq, Repr

/-- Fields of the User model read on the webhook signal path. -/
structure User where
  enabledCoins : List String
  tradingActive : Bool
  paperTradingMode : Bool
  deltaConnected : Bool
  isActive : Bool
  isApproved : Bool
  riskSettings : RiskSettings
  consecutiveLosses : ℕ
  deriving DecidableEq, Repr

/-- Trading-hours block of the TradingConfig model. -/
structure TradingHours where
  enabled : Bool
  startTime : String
  endTime : String
  deriving DecidableEq, Repr

/-- Daily statistics block of the TradingConfig model. -/
structure DailyStats where
  currentPnL : ℚ
  tradesCount : ℕ
  winRate : ℚ
  deriving DecidableEq, Repr

/-- The TradingConfig model fields relevant to risk control. -/
structure TradingConfig where
  dailyLossLimit : ℚ
  capitalConservationMode : Bool
  emergencyStop : Bool
  emergencyStopReason : String
  isActive : Bool
  tradingHours : TradingHours
  dailyStats : DailyStats
  deriving DecidableEq, Repr

/-- Method `updateDailyPnL(pnl, isWin)` of TradingConfig: add `pnl` to
`dailyStats.currentPnL`, increment `dailyStats.tradesCount`, and if the
updated PnL satisfies `|currentPnL| >= dailyLossLimit` set
`emergencyStop`, `emergencyStopReason` and `capitalConservationMode`.
The `isWin` argument is unused by the method body (it never updates
`winRate`). -/
def TradingConfig.updateDailyPnL (c : TradingConfig) (pnl : ℚ) (_isWin : Bool) :
    TradingConfig :=
  let c2 : TradingConfig :=
    { c with dailyStats := { c.dailyStats with
        currentPnL := c.dailyStats.currentPnL + pnl,
        tradesCount := c.dailyStats.tradesCount + 1 } }
  if c2.dailyLossLimit ≤ |c2.dailyStats.currentPnL| then
    { c2 with emergencyStop := true,
              emergencyStopReason := "Daily loss limit reached",
              capitalConservationMode := true }
  else c2

/-- Method `isTradingAllowed()` of TradingConfig, with the wall-clock time
(HH:MM string, compared lexicographically as in JS) passed in. It checks
`emergencyStop` first, then `isActive`, the daily loss limit with
`Math.abs`, and the trading-hours window. It is called only from the
`/trading/start` and `/trading/status` endpoints — not on the webhook
signal path. -/
def TradingConfig.isTradingAllowed (c : TradingConfig) (currentTime : String) : Bool :=
  if c.emergencyStop then false
  else if c.isActive = false then false
  else if c.dailyLossLimit ≤ |c.dailyStats.currentPnL| then false
  else if c.tradingHours.enabled ∧
      (currentTime < c.tradingHours.startTime ∨ c.tradingHours.endTime < currentTime) then
    false
  else true

/-! ### Admission: webhookController + the guard chain of processWebhookSignal -/

/-- Typed rejection reasons; each corresponds to an error thrown (or an HTTP
rejection sent) on the webhook path. Note that no reason corresponding to
`EmergencyStopActive` exists anywhere on this path. -/
inductive RejectReason
  | invalidSignalFormat
  | coinDisabled
  | dailyTradeLimit
  | consecutiveLossStop
  | dailyLossCap
  | userNotActive
  | tradingNotActive
  deriving DecidableEq, Repr

/-- Guard 1 of processWebhookSignal:
`user.enabledCoins.includes(parsedSignal.symbol)` (an undefined symbol is
never a member). -/
def coinEnabled (user : User) (sig : ParsedSignal) : Bool :=
  match sig.symbol with
  | some sym => user.enabledCoins.contains sym
  | none => false

/-- The guard chain of `processWebhookSignal` after parsing, evaluated on a
snapshot: `todayTradeCount` is the count of today's trades,
`todayPnL` the summed pnl of today's FILLED trades. The guards, in source
order: coin enabled, daily trade count (`todayTrades >= maxTradeCountPerDay`),
consecutive losses (`user.consecutiveLosses >= 3`), and the daily loss cap
(`currentDayPnL <= -user.riskSettings.dailyLossCap`). -/
def admitParsed (user : User) (sig : ParsedSignal) (todayTradeCount : ℕ)
    (todayPnL : ℚ) : Except RejectReason ParsedSignal :=
  if coinEnabled user sig = false then Except.error RejectReason.coinDisabled
  else if user.riskSettings.maxTradeCountPerDay ≤ todayTradeCount then
    Except.error RejectReason.dailyTradeLimit
  else if 3 ≤ user.consecutiveLosses then Except.error RejectReason.consecutiveLossStop
  else if todayPnL ≤ -user.riskSettings.dailyLossCap then
    Except.error RejectReason.dailyLossCap
  else Except.ok sig

/-- Admission decision of `processWebhookSignal`: parse, then run the guard
chain. -/
def admitSignal (parsePrice : String → Option ℚ) (user : User) (raw : RawSignal)
    (todayTradeCount : ℕ) (todayPnL : ℚ) : Except RejectReason ParsedSignal :=
  match parseSignal parsePrice raw with
  | none => Except.error RejectReason.invalidSignalFormat
  | some sig => admitParsed user sig todayTradeCount todayPnL

/-- Full admission pipeline for a TradingView webhook:
`webhookController.handleTradingViewWebhook` checks `isActive`/`isApproved`
and `user.tradingActive`, then hands off to `processWebhookSignal`. The
user's TradingConfig — the document that carries `emergencyStop` — is never
loaded on this path; it appears as an explicit argument here precisely to
record that the admission decision does not depend on it. -/
def webhookAdmission (parsePrice : String → Option ℚ) (user : User)
    (_cfg : TradingConfig) (raw : RawSignal) (todayTradeCount : ℕ) (todayPnL : ℚ) :
    Except RejectReason ParsedSignal :=
  if (user.isActive && user.isApproved) = false then Except.error RejectReason.userNotActive
  else if user.tradingActive = false then Except.error RejectReason.tradingNotActive
  else admitSignal parsePrice user raw todayTradeCount todayPnL

/-! ### Concrete fixtures -/

/-- Trading hours disabled (the model default). -/
def hoursOff : TradingHours := { enabled := false, startTime := "09:00", endTime := "17:00" }

/-- An active, approved paper-trading user with default risk settings and a
clean risk state. -/
def userOk : User :=
  { enabledCoins := ["BTC", "ETH"]
    tradingActive := true
    paperTradingMode := true
    deltaConnected := false
    isActive := true
    isApproved := true
    riskSettings := { dailyLossCap := 1000, maxTradeCountPerDay := 10, maxTradeSizePercent := 5 }
    consecutiveLosses := 0 }

/-- A TradingConfig with the emergency stop engaged. -/
def cfgStop : TradingConfig :=
  { dailyLossLimit := 1000
    capitalConservationMode := false
    emergencyStop := true
    emergencyStopReason := "Manual stop by user"
    isActive := true
    tradingHours := hoursOff
    dailyStats := { currentPnL := 0, tradesCount := 0, winRate := 0 } }

/-- A BUY signal for BTC at 50000, as a JSON payload. -/
def rawBuy : RawSignal :=
  RawSignal.obj { symbol := some "BTCUSDT", action := some "buy", side := none,
                  price := some 50000, type_ := none, quantity := none }

/-- The parse of `rawBuy`. -/
def sigBuy : ParsedSignal :=
  { symbol := some "BTC", side := some "BUY", price := some 50000,
    type_ := "MARKET", quantity := none }

/-! ### Claim C1 (emergency stop at admission) -/

/-- C1 (code bug): the webhook admission path never reads
`TradingConfig.emergencyStop`. The admission decision is invariant under any
change of the config, and at a concrete state with the emergency stop
engaged (where `isTradingAllowed` itself answers false) a BUY signal is
still admitted — no guard rejects it with an emergency-stop reason. -/
theorem C1_emergency_stop_not_enforced :
    (∀ (pp : String → Option ℚ) (u : User) (cfg cfg2 : TradingConfig)
        (raw : RawSignal) (n : ℕ) (q : ℚ),
      webhookAdmission pp u cfg raw n q = webhookAdmission pp u cfg2 raw n q) ∧
    cfgStop.emergencyStop = true ∧
    cfgStop.isTradingAllowed "12:00" = false ∧
    webhookAdmission ppNone userOk cfgStop rawBuy 0 0 = Except.ok sigBuy :=
  ⟨fun _ _ _ _ _ _ _ => rfl, rfl, rfl, rfl⟩

/-! ### Claim C2 (post-fill loss-cap breaker) -/

/-- C2: whenever applying a fill's pnl takes `|currentPnL|` to or past
`dailyLossLimit`, `updateDailyPnL` records the new PnL and sets all three
breaker fields. -/
theorem C2_post_fill_breaker (c : TradingConfig) (pnl : ℚ) (w : Bool)
    (h : c.dailyLossLimit ≤ |c.dailyStats.currentPnL + pnl|) :
    (c.updateDailyPnL pnl w).dailyStats.currentPnL = c.dailyStats.currentPnL + pnl ∧
    (c.updateDailyPnL pnl w).emergencyStop = true ∧
    (c.updateDailyPnL pnl w).emergencyStopReason = "Daily loss limit reached" ∧
    (c.updateDailyPnL pnl w).capitalConservationMode = true := by
  simp only [TradingConfig.updateDailyPnL]
  split_ifs
  exact ⟨rfl, rfl, rfl, rfl⟩

/-- Scenario A of the spec: `dailyLossLimit=1000`, `currentPnL=-950`. -/
def cfgA : TradingConfig :=
  { dailyLossLimit := 1000
    capitalConservationMode := false
    emergencyStop := false
    emergencyStopReason := ""
    isActive := true
    tradingHours := hoursOff
    dailyStats := { currentPnL := -950, tradesCount := 3, winRate := 0 } }

/-- C2 (witness): Scenario A — a filled trade with pnl = -100 takes the
daily PnL to -1050 and trips all three breaker fields. -/
theorem C2_witness :
    cfgA.dailyLossLimit ≤ |cfgA.dailyStats.currentPnL + (-100)| ∧
    (cfgA.updateDailyPnL (-100) false).dailyStats.currentPnL = -1050 ∧
    (cfgA.updateDailyPnL (-100) false).emergencyStop = true ∧
    (cfgA.updateDailyPnL (-100) false).emergencyStopReason = "Daily loss limit reached" ∧
    (cfgA.updateDailyPnL (-100) false).capitalConservationMode = true := by
  have h : cfgA.dailyLossLimit ≤ |cfgA.dailyStats.currentPnL + (-100)| := by
    have e1 : cfgA.dailyLossLimit = 1000 := rfl
    have e2 : cfgA.dailyStats.currentPnL = -950 := rfl
    rw [e1, e2, show (-950 : ℚ) + (-100) = -1050 by norm_num,
      abs_of_nonpos (by norm_num)]
    norm_num
  obtain ⟨h1, h2, h3, h4⟩ := C2_post_fill_breaker cfgA (-100) false h
  refine ⟨h, ?_, h2, h3, h4⟩
  rw [h1]
  have e2 : cfgA.dailyStats.currentPnL = -950 := rfl
  rw [e2]; norm_num

/-! ### Claim C3 (daily loss cap guard) -/

/-- C3 (counterexample): with the daily loss cap 1000 and today's PnL equal
to +1000 we have `|dailyPnL| ≥ dailyLossCap`, yet the signal is admitted —
the guard compares `todayPnL <= -dailyLossCap` and never fires on profits,
so the claimed if-and-only-if characterisation is false. -/
theorem C3_counterexample :
    userOk.riskSettings.dailyLossCap ≤ |(1000 : ℚ)| ∧
    admitParsed userOk sigBuy 0 1000 = Except.ok sigBuy := by
  constructor
  · have e : userOk.riskSettings.dailyLossCap = 1000 := rfl
    rw [e, abs_of_nonneg (by norm_num)]
  · rfl

/-- C3 (amended): when the earlier guards pass (coin enabled, trade count
below the daily maximum, fewer than 3 consecutive losses), the admission
check rejects with the daily-loss-cap reason if and only if
`todayPnL ≤ -dailyLossCap` — i.e. only when the day's PnL is a loss at or
past the cap, not on `|dailyPnL| ≥ dailyLossCap` in general. -/
theorem C3_loss_cap_guard_iff (user : User) (sig : ParsedSignal) (n : ℕ) (q : ℚ)
    (hcoin : coinEnabled user sig = true)
    (hcount : n < user.riskSettings.maxTradeCountPerDay)
    (hloss : user.consecutiveLosses < 3) :
    (admitParsed user sig n q = Except.error RejectReason.dailyLossCap ↔
      q ≤ -user.riskSettings.dailyLossCap) := by
  unfold admitParsed
  rw [hcoin, if_neg (by simp), if_neg (Nat.not_le.mpr hcount),
    if_neg (Nat.not_le.mpr hloss)]
  split_ifs with hq
  · simp [hq]
  · simp [hq]

/-- C3 (witness for the amended claim): with a clean state and today's PnL
at -1000 against a cap of 1000, the guard fires. -/
theorem C3_witness :
    coinEnabled userOk sigBuy = true ∧
    0 < userOk.riskSettings.maxTradeCountPerDay ∧
    userOk.consecutiveLosses < 3 ∧
    (admitParsed userOk sigBuy 0 (-1000) = Except.error RejectReason.dailyLossCap ↔
      (-1000 : ℚ) ≤ -userOk.riskSettings.dailyLossCap) :=
  ⟨rfl, by decide, by decide,
    C3_loss_cap_guard_iff userOk sigBuy 0 (-1000) rfl (by decide) (by decide)⟩

/-! ### Strategy confidence learner (Strategy model methods) -/

/-- Fields of the Strategy model touched by `updatePerformance` and
`updateConfidenceScore` (the Sharpe-ratio field is untouched by these
methods and omitted). -/
structure Strategy where
  totalTrades : ℕ
  winningTrades : ℕ
  losingTrades : ℕ
  winRate : ℚ
  totalPnL : ℚ
  avgPnL : ℚ
  confidenceScore : ℚ
  consecutiveLosses : ℕ
  deriving DecidableEq, Repr

/-- Constant `learningRate = 0.1` of `updateConfidenceScore`. -/
def learningRate : ℚ := 1 / 10

/-- Constant `maxConfidence = 95` of `updateConfidenceScore`. -/
def maxConfidence : ℚ := 95

/-- Constant `minConfidence = 5` of `updateConfidenceScore`. -/
def minConfidence : ℚ := 5

/-- Method `updateConfidenceScore(isWin)`: a win moves the score toward 100
by the learning rate (clamped above at 95), a loss decays it multiplicatively
(clamped below at 5); then, if `consecutiveLosses >= 3`, an extra
`* 0.8` penalty is applied (again clamped below at 5). -/
def Strategy.updateConfidenceScore (s : Strategy) (isWin : Bool) : Strategy :=
  let updated : Strategy :=
    if isWin then
      { s with confidenceScore := min maxConfidence (s.confidenceScore + learningRate * (100 - s.confidenceScore)) }
    else
      { s with confidenceScore := max minConfidence (s.confidenceScore - learningRate * s.confidenceScore) }
  if 3 ≤ updated.consecutiveLosses then
    { updated with confidenceScore := max minConfidence (updated.confidenceScore * (8 / 10)) }
  else updated

/-- Method `updatePerformance(trade)`: update the trade counters, PnL
aggregates, the consecutive-loss streak (reset on `pnl > 0`, incremented
otherwise), the win rate, and finally the confidence score via
`updateConfidenceScore(trade.pnl > 0)`. -/
def Strategy.updatePerformance (s : Strategy) (pnl : ℚ) : Strategy :=
  let s1 : Strategy :=
    { s with totalTrades := s.totalTrades + 1, totalPnL := s.totalPnL + pnl }
  let s2 : Strategy := { s1 with avgPnL := s1.totalPnL / (s1.totalTrades : ℚ) }
  let s3 : Strategy :=
    if 0 < pnl then
      { s2 with winningTrades := s2.winningTrades + 1, consecutiveLosses := 0 }
    else
      { s2 with losingTrades := s2.losingTrades + 1,
                consecutiveLosses := s2.consecutiveLosses + 1 }
  let s4 : Strategy :=
    { s3 with winRate := ((s3.winningTrades : ℚ) / (s3.totalTrades : ℚ)) * 100 }
  s4.updateConfidenceScore (decide (0 < pnl))

/-- Fold a whole sequence of filled trades (given by their pnl values)
through `updatePerformance`. -/
def Strategy.runTrades (s : Strategy) (pnls : List ℚ) : Strategy :=
  pnls.foldl Strategy.updatePerformance s

/-- One confidence update keeps the score inside `[5, 95]`. -/
theorem updateConfidenceScore_bounds (s : Strategy) (w : Bool)
    (h5 : 5 ≤ s.confidenceScore) (h95 : s.confidenceScore ≤ 95) :
    5 ≤ (s.updateConfidenceScore w).confidenceScore ∧
      (s.updateConfidenceScore w).confidenceScore ≤ 95 := by
  simp only [Strategy.updateConfidenceScore, learningRate, maxConfidence, minConfidence]
  cases w <;> split_ifs <;> constructor <;>
    simp only [min_def, max_def] <;> split_ifs <;> linarith

/-- One `updatePerformance` call keeps the confidence score inside
`[5, 95]` (the bookkeeping before the confidence update does not touch the
score). -/
theorem updatePerformance_confidence_bounds (s : Strategy) (pnl : ℚ)
    (h5 : 5 ≤ s.confidenceScore) (h95 : s.confidenceScore ≤ 95) :
    5 ≤ (s.updatePerformance pnl).confidenceScore ∧
      (s.updatePerformance pnl).confidenceScore ≤ 95 := by
  simp only [Strategy.updatePerformance]
  split_ifs with hw
  · exact updateConfidenceScore_bounds _ _ h5 h95
  · exact updateConfidenceScore_bounds _ _ h5 h95

/-! ### Claim C4 (confidence stays in [5, 95]) -/

/-- C4: starting from any confidence score in `[5, 95]`, every finite
sequence of win/loss updates (with the consecutive-loss penalty included)
leaves the score in `[5, 95]`; since every prefix of a sequence is itself
a sequence, the score is in range after each individual update. -/
theorem C4_confidence_invariant (s : Strategy) (pnls : List ℚ)
    (h5 : 5 ≤ s.confidenceScore) (h95 : s.confidenceScore ≤ 95) :
    5 ≤ (s.runTrades pnls).confidenceScore ∧
      (s.runTrades pnls).confidenceScore ≤ 95 := by
  induction pnls generalizing s with
  | nil => exact ⟨h5, h95⟩
  | cons p ps ih =>
      have h := updatePerformance_confidence_bounds s p h5 h95
      exact ih (s.updatePerformance p) h.1 h.2

/-- A freshly created strategy record: confidence 50, empty statistics. -/
def sC : Strategy :=
  { totalTrades := 0, winningTrades := 0, losingTrades := 0, winRate := 0,
    totalPnL := 0, avgPnL := 0, confidenceScore := 50, consecutiveLosses := 0 }

/-- C4 (witness): a fresh strategy run through a win followed by four
losses stays within `[5, 95]`. -/
theorem C4_witness :
    5 ≤ (sC.runTrades [100, -50, -50, -50, -50]).confidenceScore ∧
      (sC.runTrades [100, -50, -50, -50, -50]).confidenceScore ≤ 95 :=
  C4_confidence_invariant sC [100, -50, -50, -50, -50] (by norm_num [sC]) (by norm_num [sC])

/-! ### Claim C5 (exact confidence update map) -/

/-- C5: when the strategy has fewer than 3 consecutive losses (so no extra
penalty applies), a win maps the score `c` to `min 95 (c + 0.1 * (100 - c))`
and a loss maps it to `max 5 (c - 0.1 * c)` — i.e. exactly the claimed maps
up to the clamps. -/
theorem C5_confidence_update_map (s : Strategy) (h : s.consecutiveLosses < 3) :
    (s.updateConfidenceScore true).confidenceScore
        = min 95 (s.confidenceScore + (1 / 10) * (100 - s.confidenceScore)) ∧
    (s.updateConfidenceScore false).confidenceScore
        = max 5 (s.confidenceScore - (1 / 10) * s.confidenceScore) := by
  have h2 : ¬ (3 ≤ s.consecutiveLosses) := Nat.not_le.mpr h
  constructor <;>
    simp [Strategy.updateConfidenceScore, learningRate, maxConfidence, minConfidence, h2]

/-- A strategy sitting at confidence 55 after one winning trade. -/
def sC55 : Strategy :=
  { totalTrades := 1, winningTrades := 1, losingTrades := 0, winRate := 100,
    totalPnL := 100, avgPnL := 100, confidenceScore := 55, consecutiveLosses := 0 }

/-- C5 (witness): Scenario C — from 50 a win yields exactly 55, and a loss
from 55 yields exactly 49.5; the same values arise through the full
`updatePerformance` pipeline. -/
theorem C5_witness :
    sC.consecutiveLosses < 3 ∧
    (sC.updateConfidenceScore true).confidenceScore = 55 ∧
    (sC55.updateConfidenceScore false).confidenceScore = 99 / 2 ∧
    (sC.updatePerformance 100).confidenceScore = 55 ∧
    ((sC.updatePerformance 100).updatePerformance (-50)).confidenceScore = 99 / 2 := by
  refine ⟨by decide, ?_, ?_, ?_, ?_⟩
  · rw [(C5_confidence_update_map sC (by decide)).1]
    have e : sC.confidenceScore = 50 := rfl
    rw [e]; norm_num [min_def]
  · rw [(C5_confidence_update_map sC55 (by decide)).2]
    have e : sC55.confidenceScore = 55 := rfl
    rw [e]; norm_num [max_def]
  · norm_num [sC, Strategy.updatePerformance, Strategy.updateConfidenceScore,
      learningRate, maxConfidence, minConfidence, min_def, max_def]
  · norm_num [sC, Strategy.updatePerformance, Strategy.updateConfidenceScore,
      learningRate, maxConfidence, minConfidence, min_def, max_def]

/-! ### Execution (executeTrade, calculatePositionSize, getCurrentPrice) -/

/-- Trade statuses of the Trade model. -/
inductive TradeStatus
  | PENDING
  | FILLED
  | CANCELLED
  | REJECTED
  deriving DecidableEq, Repr

/-- The Trade record as created and then mutated by `executeTrade`.
The initial `status` before either execution branch assigns it is modelled
from the spec as PENDING (models/Trade.js itself is not in the tree); every
branch of `executeTrade` overwrites it before returning. -/
structure Trade where
  symbol : String
  side : Option String
  type_ : String
  quantity : ℚ
  price : ℚ
  strategy : String
  confidenceScore : ℚ
  paperTrade : Bool
  status : TradeStatus
  executedPrice : Option ℚ
  orderId : Option String
  deriving DecidableEq, Repr

/-- `calculatePositionSize(user, price)`: 10% of a hardcoded 10000 account
balance scaled by `maxTradeSizePercent`, divided by price, floored to two
decimals (`Math.floor(x * 100) / 100`). -/
def calculatePositionSize (user : User) (price : ℚ) : ℚ :=
  let maxTradeSize := user.riskSettings.maxTradeSizePercent / 100
  let accountBalance : ℚ := 10000
  let maxPositionValue := accountBalance * maxTradeSize
  (⌊maxPositionValue / price * 100⌋ : ℚ) / 100

/-- `getCurrentPrice(symbol)`: the ticker fetch result when the request
succeeds, and the hardcoded fallback 50000 when it fails — the error is
swallowed, not propagated. -/
def getCurrentPrice (fetchResult : Option ℚ) : ℚ :=
  match fetchResult with
  | some p => p
  | none => 50000

/-- Price resolution at the top of `executeTrade`:
`let price = signal.price; if (!price) price = await getCurrentPrice(...)`.
A missing price (and also an explicit 0, which is falsy) triggers the
exchange price fetch; the second component counts those fetches. -/
def priceFetch (sigPrice : Option ℚ) (fetchResult : Option ℚ) : ℚ × ℕ :=
  match sigPrice with
  | some p => if p = 0 then (getCurrentPrice fetchResult, 1) else (p, 0)
  | none => (getCurrentPrice fetchResult, 1)

/-- Quantity resolution of `executeTrade`:
`quantity: signal.quantity || positionSize` — a provided nonzero quantity is
used as-is, with no cap; a missing (or zero, falsy) quantity falls back to
the computed position size. -/
def jsQtyOr (sigQty : Option ℚ) (positionSize : ℚ) : ℚ :=
  match sigQty with
  | some q => if q = 0 then positionSize else q
  | none => positionSize

/-- Outcome of `executeTrade`: either the saved trade (normal return) or a
trade saved with status REJECTED just before the Delta error is rethrown. -/
inductive ExecResult
  | ok (t : Trade)
  | thrown (t : Trade)
  deriving DecidableEq, Repr

/-- The trade record saved by either outcome. -/
def ExecResult.trade : ExecResult → Trade
  | ExecResult.ok t => t
  | ExecResult.thrown t => t

/-- Whether `executeTrade` returned normally. -/
def ExecResult.isOk : ExecResult → Bool
  | ExecResult.ok _ => true
  | ExecResult.thrown _ => false

/-- Result of `executeTrade` together with the number of exchange-connector
calls it made (price fetches and order submissions). -/
structure ExecOutcome where
  result : ExecResult
  priceFetchCalls : ℕ
  orderSubmitCalls : ℕ
  deriving DecidableEq, Repr

/-- `executeTrade(user, signal)`: resolve the price (fetching it when
absent), compute the position size, create the Trade record, then either
submit to Delta (when `!user.paperTradingMode && user.deltaConnected`;
success leaves the trade PENDING with the order id, failure saves it
REJECTED and rethrows) or simulate the fill (status FILLED at the resolved
price, no order submission). The Delta submission outcome is passed in as
`deltaResult`. -/
def executeTrade (user : User) (sig : ParsedSignal) (fetchResult : Option ℚ)
    (deltaResult : Option String) : ExecOutcome :=
  let price := (priceFetch sig.price fetchResult).1
  let fetches := (priceFetch sig.price fetchResult).2
  let positionSize := calculatePositionSize user price
  let trade : Trade :=
    { symbol := (match sig.symbol with | some s => s ++ "USDT" | none => "undefinedUSDT")
      side := sig.side
      type_ := if sig.type_ = "" then "MARKET" else sig.type_
      quantity := jsQtyOr sig.quantity positionSize
      price := price
      strategy := "webhook_signal"
      confidenceScore := 75
      paperTrade := user.paperTradingMode
      status := TradeStatus.PENDING
      executedPrice := none
      orderId := none }
  if (!user.paperTradingMode && user.deltaConnected) then
    match deltaResult with
    | some oid =>
        { result := ExecResult.ok { trade with orderId := some oid, status := TradeStatus.PENDING }
          priceFetchCalls := fetches
          orderSubmitCalls := 1 }
    | none =>
        { result := ExecResult.thrown { trade with status := TradeStatus.REJECTED }
          priceFetchCalls := fetches
          orderSubmitCalls := 1 }
  else
    { result := ExecResult.ok { trade with status := TradeStatus.FILLED, executedPrice := some price }
      priceFetchCalls := fetches
      orderSubmitCalls := 0 }

/-! ### Claim C8 (explicit quantity vs the sizer bound) -/

/-- A BUY signal at 50000 carrying an explicit huge quantity. -/
def sigBigQty : ParsedSignal :=
  { symbol := some "BTC", side := some "BUY", price := some 50000,
    type_ := "MARKET", quantity := some 1000000 }

/-- C8 (counterexample): with `maxTradeSizePercent = 5` and price 50000 the
sizer bound is 0.01, yet a signal carrying quantity 1000000 produces a trade
with quantity 1000000 — the provided quantity is not capped at the sizer's
nominal bound. -/
theorem C8_counterexample :
    (executeTrade userOk sigBigQty none none).result.trade.quantity = 1000000 ∧
    calculatePositionSize userOk 50000 < 1000000 := by
  constructor
  · rfl
  · have e : calculatePositionSize userOk 50000
        = (⌊(10000 : ℚ) * (5 / 100) / 50000 * 100⌋ : ℚ) / 100 := rfl
    rw [e, show (10000 : ℚ) * (5 / 100) / 50000 * 100 = 1 by norm_num]
    norm_num

/-- C8 (amended): an explicitly provided nonzero quantity overrides the
computed position size entirely — the created trade records exactly the
provided quantity, whatever the sizer bound is. -/
theorem C8_quantity_override_uncapped (user : User) (sig : ParsedSignal)
    (fr : Option ℚ) (dr : Option String) (q : ℚ)
    (hq : sig.quantity = some q) (h0 : q ≠ 0) :
    (executeTrade user sig fr dr).result.trade.quantity = q := by
  simp only [executeTrade, hq, jsQtyOr, if_neg h0]
  split_ifs <;> first
    | rfl
    | (cases dr <;> rfl)

/-- C8 (witness for the amended claim): the quantity-1000000 signal. -/
theorem C8_witness :
    sigBigQty.quantity = some 1000000 ∧
    (executeTrade userOk sigBigQty none none).result.trade.quantity = 1000000 :=
  ⟨rfl, C8_quantity_override_uncapped userOk sigBigQty none none 1000000 rfl (by norm_num)⟩

/-! ### Claim C9 (paper-trading execution) -/

/-- A BUY signal with no price attached. -/
def sigNoPrice : ParsedSignal :=
  { symbol := some "BTC", side := some "BUY", price := none,
    type_ := "MARKET", quantity := none }

/-- C9 (counterexample): for a paper-trading user, a signal that omits its
price is still immediately FILLED, but the execution makes one price-fetch
call to the exchange connector and fills at the fetched market price — so
"no call to the exchange connector" fails for such signals. -/
theorem C9_counterexample :
    userOk.paperTradingMode = true ∧
    sigNoPrice.price = none ∧
    (executeTrade userOk sigNoPrice (some 123) none).priceFetchCalls = 1 ∧
    (executeTrade userOk sigNoPrice (some 123) none).result.trade.status = TradeStatus.FILLED ∧
    (executeTrade userOk sigNoPrice (some 123) none).result.trade.executedPrice = some 123 :=
  ⟨rfl, rfl, rfl, rfl, rfl⟩

/-- C9 (amended): for a paper-trading user, execution of a signal that
carries an explicit (nonzero) price resolves immediately to a FILLED trade
executed at that requested price, with zero exchange-connector calls (no
price fetch and no order submission). -/
theorem C9_paper_fill (user : User) (sig : ParsedSignal) (fr : Option ℚ)
    (dr : Option String) (p : ℚ)
    (hp : user.paperTradingMode = true) (hpr : sig.price = some p) (h0 : p ≠ 0) :
    (executeTrade user sig fr dr).priceFetchCalls = 0 ∧
    (executeTrade user sig fr dr).orderSubmitCalls = 0 ∧
    (executeTrade user sig fr dr).result.isOk = true ∧
    (executeTrade user sig fr dr).result.trade.status = TradeStatus.FILLED ∧
    (executeTrade user sig fr dr).result.trade.executedPrice = some p := by
  have hcond : (!user.paperTradingMode && user.deltaConnected) = false := by
    rw [hp]; rfl
  refine ⟨?_, ?_, ?_, ?_, ?_⟩ <;>
    simp [executeTrade, priceFetch, hpr, if_neg h0, hcond, ExecResult.isOk, ExecResult.trade]

/-- C9 (witness for the amended claim): the BUY-at-50000 signal. -/
theorem C9_witness :
    (executeTrade userOk sigBuy none none).priceFetchCalls = 0 ∧
    (executeTrade userOk sigBuy none none).orderSubmitCalls = 0 ∧
    (executeTrade userOk sigBuy none none).result.isOk = true ∧
    (executeTrade userOk sigBuy none none).result.trade.status = TradeStatus.FILLED ∧
    (executeTrade userOk sigBuy none none).result.trade.executedPrice = some 50000 :=
  C9_paper_fill userOk sigBuy none none 50000 rfl rfl (by norm_num)

/-! ### Claim C10 (price-fetch failure fallback) -/

/-- C10: when the exchange price request fails, `getCurrentPrice` returns
the constant 50000 instead of propagating the error, and a paper-mode signal
that omits its price is sized against 50000 and immediately FILLED at that
fabricated price. -/
theorem C10_price_fallback (user : User) (sig : ParsedSignal) (dr : Option String)
    (hp : user.paperTradingMode = true) (hpr : sig.price = none)
    (hq : sig.quantity = none) :
    getCurrentPrice none = 50000 ∧
    (executeTrade user sig none dr).priceFetchCalls = 1 ∧
    (executeTrade user sig none dr).result.isOk = true ∧
    (executeTrade user sig none dr).result.trade.status = TradeStatus.FILLED ∧
    (executeTrade user sig none dr).result.trade.executedPrice = some 50000 ∧
    (executeTrade user sig none dr).result.trade.quantity = calculatePositionSize user 50000 := by
  have hcond : (!user.paperTradingMode && user.deltaConnected) = false := by
    rw [hp]; rfl
  refine ⟨rfl, ?_, ?_, ?_, ?_, ?_⟩ <;>
    simp [executeTrade, priceFetch, getCurrentPrice, hpr, hq, jsQtyOr, hcond,
      ExecResult.isOk, ExecResult.trade]

/-- C10 (witness): the price-less BUY signal for the paper-trading user with
a failing price request. -/
theorem C10_witness :
    getCurrentPrice none = 50000 ∧
    (executeTrade userOk sigNoPrice none none).priceFetchCalls = 1 ∧
    (executeTrade userOk sigNoPrice none none).result.isOk = true ∧
    (executeTrade userOk sigNoPrice none none).result.trade.status = TradeStatus.FILLED ∧
    (executeTrade userOk sigNoPrice none none).result.trade.executedPrice = some 50000 ∧
    (executeTrade userOk sigNoPrice none none).result.trade.quantity
      = calculatePositionSize userOk 50000 :=
  C10_price_fallback userOk sigNoPrice none rfl rfl rfl

end CryptoSaaS
